import Mathlib

/-!
Verification of the tempura rendering engine against its specification.

Shallow embedding of:
- the `Block` component lifecycle (flag bitfield, `forceUpdate`, `render`);
- `ConditionBinding` from `src/directives/condition.ts`;
- `ChoiceBinding` from `src/directives/choice.ts`;
- the `UnsafeSVG` directive from `src/directives/unsafeSVG.ts`;
- the `Scope` / `LocalScope` variable resolution and template caches.

Object identity of JS objects (bindings, templates, mount points) is modelled
by natural-number ids allocated from explicit counters; maps keyed on object
identity become association lists keyed by those ids.
-/

namespace Tempura

/-! ### Association-list maps

`Map`/`WeakMap` are modelled as association lists: `get` finds the entry for a
key, `set` replaces it in place or appends a fresh entry (preserving JS `Map`
iteration order, which is insertion order). -/

def cacheGet {α : Type} : List (Nat × α) → Nat → Option α
  | [], _ => none
  | (k', v) :: rest, k => if k' = k then some v else cacheGet rest k

def cacheSet {α : Type} : List (Nat × α) → Nat → α → List (Nat × α)
  | [], k, v => [(k, v)]
  | (k', v') :: rest, k, v =>
      if k' = k then (k, v) :: rest else (k', v') :: cacheSet rest k v

theorem cacheGet_set_self {α : Type} (c : List (Nat × α)) (k : Nat) (v : α) :
    cacheGet (cacheSet c k v) k = some v := by
  induction c with
  | nil => simp [cacheGet, cacheSet]
  | cons e rest ih =>
      obtain ⟨k', v'⟩ := e
      by_cases h : k' = k
      · simp [cacheGet, cacheSet, h]
      · simp [cacheGet, cacheSet, h, ih]

theorem cacheGet_set_ne {α : Type} (c : List (Nat × α)) (k k' : Nat) (v : α)
    (h : k' ≠ k) : cacheGet (cacheSet c k v) k' = cacheGet c k' := by
  induction c with
  | nil => simp [cacheGet, cacheSet, Ne.symm h]
  | cons e rest ih =>
      obtain ⟨k'', v''⟩ := e
      by_cases h2 : k'' = k
      · subst h2
        simp [cacheGet, cacheSet, Ne.symm h]
      · by_cases h3 : k'' = k'
        · simp [cacheGet, cacheSet, h2, h3, h]
        · simp [cacheGet, cacheSet, h2, h3, ih]

theorem cacheGet_mem {α : Type} (c : List (Nat × α)) (k : Nat) (v : α)
    (h : cacheGet c k = some v) : (k, v) ∈ c := by
  induction c with
  | nil => simp [cacheGet] at h
  | cons e rest ih =>
      obtain ⟨k', v'⟩ := e
      by_cases h2 : k' = k
      · subst h2
        simp [cacheGet] at h
        simp [h]
      · simp [cacheGet, h2] at h
        exact List.mem_cons_of_mem _ (ih h)

theorem cacheGet_set_isSome {α : Type} (c : List (Nat × α)) (k k' : Nat) (v : α)
    (h : cacheGet c k' ≠ none) : cacheGet (cacheSet c k v) k' ≠ none := by
  by_cases hk : k' = k
  · subst hk
    simp [cacheGet_set_self]
  · rw [cacheGet_set_ne c k k' v hk]
    exact h

/-! ### Bit-flag arithmetic

`Block` keeps its lifecycle flags in a number:
`const BlockFlag = { MOUNTED: 0b1, DIRTY: 0b10, UPDATING: 0b100 }`. -/

def BlockFlag.MOUNTED : Nat := 1
def BlockFlag.DIRTY : Nat := 2
def BlockFlag.UPDATING : Nat := 4

theorem and_two_pow_ne_zero (x i : Nat) : x &&& 2 ^ i ≠ 0 ↔ x.testBit i = true := by
  rw [Nat.and_two_pow]
  cases h : x.testBit i
  · simp
  · simp

theorem and_mounted_ne_zero (x : Nat) : x &&& BlockFlag.MOUNTED ≠ 0 ↔ x.testBit 0 = true := by
  have h : BlockFlag.MOUNTED = 2 ^ 0 := rfl
  rw [h, and_two_pow_ne_zero]

theorem and_dirty_ne_zero (x : Nat) : x &&& BlockFlag.DIRTY ≠ 0 ↔ x.testBit 1 = true := by
  have h : BlockFlag.DIRTY = 2 ^ 1 := rfl
  rw [h, and_two_pow_ne_zero]

theorem and_updating_ne_zero (x : Nat) : x &&& BlockFlag.UPDATING ≠ 0 ↔ x.testBit 2 = true := by
  have h : BlockFlag.UPDATING = 2 ^ 2 := rfl
  rw [h, and_two_pow_ne_zero]

/-! ### Block (component lifecycle)

State of one `Block<TProps, TContext>`; props and values are `Nat` ids,
templates and mount points are `Nat` ids.  `template.mount(values, updater)`
always returns a fresh `MountPoint` object, modelled by the `nextMountId`
counter. -/

structure TemplateResult where
  template : Nat
  values : List Nat
deriving DecidableEq

structure BlockState where
  pendingProps : Nat
  pendingMountPoint : Option Nat
  memoizedMountPoint : Option Nat
  memoizedProps : Nat
  memoizedTemplate : Option Nat
  memoizedValues : List Nat
  cachedMountPoints : Option (List (Nat × Nat))
  flags : Nat
  nextMountId : Nat
deriving DecidableEq

/-- `forceUpdate(updater)`: returns the new state and the number of
`updater.requestUpdate(this)` calls performed (0 or 1). -/
def Block.forceUpdate (s : BlockState) : BlockState × Nat :=
  if s.flags &&& BlockFlag.MOUNTED = 0 ∨ s.flags &&& BlockFlag.UPDATING ≠ 0 then
    (s, 0)
  else
    ({ s with flags := s.flags ||| (BlockFlag.DIRTY ||| BlockFlag.UPDATING) }, 1)

/-- `n` consecutive `forceUpdate` calls; returns the final state and the total
number of `requestUpdate` calls. -/
def Block.forceUpdateN : Nat → BlockState → BlockState × Nat
  | 0, s => (s, 0)
  | n + 1, s =>
      let r := Block.forceUpdate s
      let r' := Block.forceUpdateN n r.1
      (r'.1, r.2 + r'.2)

/-- The mount-point bookkeeping of `Block.render` (the body before the flag
toggle and memo commits): first render mounts unconditionally; a changed
template looks up or creates a mount point (lazily allocating the
`WeakMap` cache) and stashes the old mount point under the old template;
an unchanged template patches in place (no `Block` field changes). -/
def Block.renderMountStep (template : Nat) (s : BlockState) : BlockState :=
  match s.memoizedMountPoint with
  | none =>
      { s with pendingMountPoint := some s.nextMountId, nextMountId := s.nextMountId + 1 }
  | some mmp =>
      if s.memoizedTemplate ≠ some template then
        let s2 :=
          match s.cachedMountPoints with
          | none =>
              { s with cachedMountPoints := some ([] : List (Nat × Nat)),
                       pendingMountPoint := some s.nextMountId,
                       nextMountId := s.nextMountId + 1 }
          | some c =>
              match cacheGet c template with
              | some mp => { s with pendingMountPoint := some mp }
              | none => { s with pendingMountPoint := some s.nextMountId,
                                 nextMountId := s.nextMountId + 1 }
        -- `this._cachedMountPoints.set(this._memoizedTemplate!, this._memoizedMountPoint)`;
        -- the source asserts `_memoizedTemplate` is non-null whenever a memoized
        -- mount point exists.
        { s2 with cachedMountPoints :=
            s2.cachedMountPoints.map (fun c =>
              match s.memoizedTemplate with
              | some mt => cacheSet c mt mmp
              | none => c) }
      else
        s

/-- `render(scope, updater)`: runs the render function on the pending props,
performs the mount-point step, then
`this._flags ^= BlockFlag.DIRTY | BlockFlag.UPDATING` and commits the pending
props / returned values / returned template as memoized. -/
def Block.render (renderFn : Nat → TemplateResult) (s : BlockState) : BlockState :=
  let tr := renderFn s.pendingProps
  let s1 := Block.renderMountStep tr.template s
  { s1 with
    flags := s1.flags ^^^ (BlockFlag.DIRTY ||| BlockFlag.UPDATING),
    memoizedProps := s.pendingProps,
    memoizedValues := tr.values,
    memoizedTemplate := some tr.template }

theorem renderMountStep_flags (template : Nat) (s : BlockState) :
    (Block.renderMountStep template s).flags = s.flags := by
  unfold Block.renderMountStep
  split
  · rfl
  · split
    · split
      · rfl
      · split <;> rfl
    · rfl

theorem render_flags (renderFn : Nat → TemplateResult) (s : BlockState) :
    (Block.render renderFn s).flags
      = s.flags ^^^ (BlockFlag.DIRTY ||| BlockFlag.UPDATING) := by
  unfold Block.render
  simp [renderMountStep_flags]

theorem and_two_pow_eq_zero (x i : Nat) : x &&& 2 ^ i = 0 ↔ x.testBit i = false := by
  rw [Nat.and_two_pow]
  cases h : x.testBit i
  · simp
  · simp

theorem and_dirty_eq_zero (x : Nat) : x &&& BlockFlag.DIRTY = 0 ↔ x.testBit 1 = false := by
  have h : BlockFlag.DIRTY = 2 ^ 1 := rfl
  rw [h, and_two_pow_eq_zero]

theorem and_updating_eq_zero (x : Nat) : x &&& BlockFlag.UPDATING = 0 ↔ x.testBit 2 = false := by
  have h : BlockFlag.UPDATING = 2 ^ 2 := rfl
  rw [h, and_two_pow_eq_zero]

theorem lor_sched_dirty (x : Nat) :
    (x ||| (BlockFlag.DIRTY ||| BlockFlag.UPDATING)) &&& BlockFlag.DIRTY ≠ 0 := by
  rw [and_dirty_ne_zero, Nat.testBit_lor]
  have h : (BlockFlag.DIRTY ||| BlockFlag.UPDATING).testBit 1 = true := by decide
  rw [h, Bool.or_true]

theorem lor_sched_updating (x : Nat) :
    (x ||| (BlockFlag.DIRTY ||| BlockFlag.UPDATING)) &&& BlockFlag.UPDATING ≠ 0 := by
  rw [and_updating_ne_zero, Nat.testBit_lor]
  have h : (BlockFlag.DIRTY ||| BlockFlag.UPDATING).testBit 2 = true := by decide
  rw [h, Bool.or_true]

theorem forceUpdateN_noop (n : Nat) (s : BlockState)
    (h : s.flags &&& BlockFlag.MOUNTED = 0 ∨ s.flags &&& BlockFlag.UPDATING ≠ 0) :
    Block.forceUpdateN n s = (s, 0) := by
  induction n with
  | zero => rfl
  | succ n ih =>
      have h1 : Block.forceUpdate s = (s, 0) := by
        unfold Block.forceUpdate
        rw [if_pos h]
      unfold Block.forceUpdateN
      simp [h1, ih]

theorem forceUpdate_acts (s : BlockState)
    (hm : s.flags &&& BlockFlag.MOUNTED ≠ 0) (hu : s.flags &&& BlockFlag.UPDATING = 0) :
    Block.forceUpdate s
      = ({ s with flags := s.flags ||| (BlockFlag.DIRTY ||| BlockFlag.UPDATING) }, 1) := by
  unfold Block.forceUpdate
  rw [if_neg]
  intro hor
  rcases hor with h1 | h2
  · exact hm h1
  · exact h2 hu

/-- Claim C5: `forceUpdate(updater)` is a no-op (no flag change, no
`requestUpdate`) unless `MOUNTED` is set and `UPDATING` is clear; when it acts
it sets `DIRTY` and `UPDATING` and calls `requestUpdate` exactly once, so `n ≥ 1`
consecutive `forceUpdate` calls on a mounted block perform exactly one
`requestUpdate`. -/
theorem forceUpdate_spec (s : BlockState) :
    (s.flags &&& BlockFlag.MOUNTED = 0 ∨ s.flags &&& BlockFlag.UPDATING ≠ 0 →
        Block.forceUpdate s = (s, 0))
    ∧ (s.flags &&& BlockFlag.MOUNTED ≠ 0 → s.flags &&& BlockFlag.UPDATING = 0 →
        (Block.forceUpdate s).2 = 1
        ∧ (Block.forceUpdate s).1.flags &&& BlockFlag.DIRTY ≠ 0
        ∧ (Block.forceUpdate s).1.flags &&& BlockFlag.UPDATING ≠ 0)
    ∧ (∀ n, 1 ≤ n → s.flags &&& BlockFlag.MOUNTED ≠ 0 → s.flags &&& BlockFlag.UPDATING = 0 →
        (Block.forceUpdateN n s).2 = 1) := by
  refine ⟨?_, ?_, ?_⟩
  · intro h
    unfold Block.forceUpdate
    rw [if_pos h]
  · intro hm hu
    rw [forceUpdate_acts s hm hu]
    exact ⟨rfl, lor_sched_dirty _, lor_sched_updating _⟩
  · intro n hn hm hu
    obtain ⟨m, rfl⟩ : ∃ m, n = m + 1 := ⟨n - 1, by omega⟩
    unfold Block.forceUpdateN
    rw [forceUpdate_acts s hm hu]
    simp only []
    rw [forceUpdateN_noop m _ (Or.inr (lor_sched_updating s.flags))]
    rfl

def mountedCleanBlock : BlockState :=
  { pendingProps := 0, pendingMountPoint := some 0, memoizedMountPoint := some 0,
    memoizedProps := 0, memoizedTemplate := some 0, memoizedValues := [],
    cachedMountPoints := none, flags := BlockFlag.MOUNTED, nextMountId := 1 }

/-- Claim C5 (witness): three consecutive `forceUpdate` calls on a mounted,
non-updating block perform exactly one `requestUpdate`. -/
theorem forceUpdate_spec_witness : (Block.forceUpdateN 3 mountedCleanBlock).2 = 1 :=
  (forceUpdate_spec mountedCleanBlock).2.2 3 (by norm_num) (by decide) (by decide)

def renderFnConst : Nat → TemplateResult := fun _ => { template := 0, values := [] }

/-- A block in the Mounted-dirty state (`MOUNTED|DIRTY` set, `UPDATING` clear),
with a memoized mount point for the same template the render function returns. -/
def mountedDirtyBlock : BlockState :=
  { pendingProps := 1, pendingMountPoint := some 0, memoizedMountPoint := some 0,
    memoizedProps := 0, memoizedTemplate := some 0, memoizedValues := [],
    cachedMountPoints := none, flags := BlockFlag.MOUNTED ||| BlockFlag.DIRTY,
    nextMountId := 1 }

/-- Claim C1 (counterexample): invoked in the Mounted-dirty state, `render` does
NOT leave both `DIRTY` and `UPDATING` clear — `this._flags ^= DIRTY | UPDATING`
toggles, so `UPDATING` is set afterwards. -/
theorem render_mounted_dirty_sets_updating :
    mountedDirtyBlock.flags &&& BlockFlag.MOUNTED ≠ 0
    ∧ mountedDirtyBlock.flags &&& BlockFlag.DIRTY ≠ 0
    ∧ mountedDirtyBlock.flags &&& BlockFlag.UPDATING = 0
    ∧ (Block.render renderFnConst mountedDirtyBlock).flags &&& BlockFlag.UPDATING ≠ 0 := by
  decide

/-- Claim C1 (amended): `render` always commits the pending props, the returned
values, and the returned template as memoized, and XOR-toggles
`DIRTY|UPDATING`; hence both flags end up clear exactly when `render` is
invoked with both `DIRTY` and `UPDATING` set (the scheduled Rendering/Updating
state), not in every state — in Mounted-dirty, `UPDATING` is set instead. -/
theorem render_spec (renderFn : Nat → TemplateResult) (s : BlockState) :
    (Block.render renderFn s).memoizedProps = s.pendingProps
    ∧ (Block.render renderFn s).memoizedValues = (renderFn s.pendingProps).values
    ∧ (Block.render renderFn s).memoizedTemplate = some (renderFn s.pendingProps).template
    ∧ (Block.render renderFn s).flags = s.flags ^^^ (BlockFlag.DIRTY ||| BlockFlag.UPDATING)
    ∧ (s.flags &&& BlockFlag.DIRTY ≠ 0 → s.flags &&& BlockFlag.UPDATING ≠ 0 →
        (Block.render renderFn s).flags &&& BlockFlag.DIRTY = 0
        ∧ (Block.render renderFn s).flags &&& BlockFlag.UPDATING = 0) := by
  refine ⟨rfl, rfl, rfl, render_flags renderFn s, ?_⟩
  intro h2 h4
  have t1 : s.flags.testBit 1 = true := (and_dirty_ne_zero _).mp h2
  have t2 : s.flags.testBit 2 = true := (and_updating_ne_zero _).mp h4
  rw [render_flags]
  constructor
  · rw [and_dirty_eq_zero, Nat.testBit_xor, t1]
    decide
  · rw [and_updating_eq_zero, Nat.testBit_xor, t2]
    decide

def updatingBlock : BlockState :=
  { pendingProps := 1, pendingMountPoint := some 0, memoizedMountPoint := some 0,
    memoizedProps := 0, memoizedTemplate := some 0, memoizedValues := [],
    cachedMountPoints := none,
    flags := BlockFlag.MOUNTED ||| (BlockFlag.DIRTY ||| BlockFlag.UPDATING),
    nextMountId := 1 }

/-- Claim C1 (witness for the amended theorem): rendering a block whose `DIRTY`
and `UPDATING` flags are both set clears both. -/
theorem render_spec_witness :
    (Block.render renderFnConst updatingBlock).flags &&& BlockFlag.DIRTY = 0
    ∧ (Block.render renderFnConst updatingBlock).flags &&& BlockFlag.UPDATING = 0 :=
  (render_spec renderFnConst updatingBlock).2.2.2.2 (by decide) (by decide)

/-! ### The binding layer

`createBinding` / `updateBinding` live in `binding.ts` / `part.ts`, which are
not part of the inspected sources; they are modelled from the spec (§4.2).
A `Binding` object is identified by `id`; `kind` is the directive kind it
accepts.  Each operation reports the lifecycle calls it makes as a list of
`BindingEv` events. -/

structure BindingObj where
  id : Nat
  kind : Nat
deriving DecidableEq

inductive BindingEv : Type
  | create (id : Nat)
  | bindCall (id : Nat)
  | unbind (id : Nat)
  | disconnect (id : Nat)
deriving DecidableEq

/-- A value handed to the binding layer; `kind` is its directive kind. -/
structure DirValue where
  kind : Nat
  payload : Nat
deriving DecidableEq

/-- Modelled from the spec: `createBinding(part, value, updater)` from the
binding module (not under `src/`) — constructs a fresh Binding for the value
(spec §4.2); the fresh object is allocated from the `nextId` counter. -/
def createBinding (value : DirValue) (nextId : Nat) : BindingObj × Nat × List BindingEv :=
  (⟨nextId, value.kind⟩, nextId + 1, [.create nextId])

/-- Modelled from the spec: `updateBinding(oldBinding, newValue, updater,
forceReplace?)` from the binding module (not under `src/`) — if the new value's
directive kind matches the existing Binding's accepted kind, delegates to the
existing Binding's `bind` (same object; `forceReplace` merely forces the rebind
against possibly-stale state); otherwise unbinds the old Binding, disconnects
it, and constructs a new one via `createBinding` (spec §4.2). -/
def updateBinding (b : BindingObj) (value : DirValue) (nextId : Nat)
    (forceReplace : Bool) : BindingObj × Nat × List BindingEv :=
  if value.kind = b.kind then
    (b, nextId, [.bindCall b.id])
  else
    (⟨nextId, value.kind⟩, nextId + 1, [.unbind b.id, .disconnect b.id, .create nextId])

/-! ### ConditionBinding (`src/directives/condition.ts`)

`ValueOrFunction<T> = T | (() => T)`. -/

inductive VF (α : Type) : Type
  | val (a : α)
  | fn (f : Unit → α)

/-- `typeof x === 'function' ? x() : x`. -/
def VF.eval {α : Type} : VF α → α
  | .val a => a
  | .fn f => f ()

/-- JS truthiness of a `boolean | (() => boolean)` value: a function object is
always truthy. -/
def VF.truthy : VF Bool → Bool
  | .val b => b
  | .fn _ => true

structure ConditionDirective where
  condition : VF Bool
  trueCase : VF DirValue
  falseCase : VF DirValue

structure ConditionBinding where
  directive : ConditionDirective
  trueBinding : Option BindingObj
  falseBinding : Option BindingObj
  nextId : Nat

/-- `ConditionBinding.bind(updater)`: evaluates the condition (invoking it when
it is a function), evaluates the selected branch's case, unbinds the other
branch's existing sub-binding, and updates or creates the selected branch's
sub-binding. -/
def ConditionBinding.bind (s : ConditionBinding) : ConditionBinding × List BindingEv :=
  let d := s.directive
  if d.condition.eval then
    let newValue := d.trueCase.eval
    let unbindEvs :=
      match s.falseBinding with
      | some fb => [BindingEv.unbind fb.id]
      | none => []
    match s.trueBinding with
    | some tb =>
        let r := updateBinding tb newValue s.nextId false
        ({ s with trueBinding := some r.1, nextId := r.2.1 }, unbindEvs ++ r.2.2)
    | none =>
        let r := createBinding newValue s.nextId
        ({ s with trueBinding := some r.1, nextId := r.2.1 }, unbindEvs ++ r.2.2)
  else
    let newValue := d.falseCase.eval
    let unbindEvs :=
      match s.trueBinding with
      | some tb => [BindingEv.unbind tb.id]
      | none => []
    match s.falseBinding with
    | some fb =>
        let r := updateBinding fb newValue s.nextId false
        ({ s with falseBinding := some r.1, nextId := r.2.1 }, unbindEvs ++ r.2.2)
    | none =>
        let r := createBinding newValue s.nextId
        ({ s with falseBinding := some r.1, nextId := r.2.1 }, unbindEvs ++ r.2.2)

def optUnbind : Option BindingObj → List BindingEv
  | some b => [.unbind b.id]
  | none => []

def optDisconnect : Option BindingObj → List BindingEv
  | some b => [.disconnect b.id]
  | none => []

/-- `ConditionBinding.unbind(updater)`: `if (condition)` — raw JS truthiness of
the stored condition, the function is NOT invoked — then unbinds the branch the
truthiness selects and disconnects the other branch's sub-binding. -/
def ConditionBinding.unbind (s : ConditionBinding) : List BindingEv :=
  if s.directive.condition.truthy then
    optUnbind s.trueBinding ++ optDisconnect s.falseBinding
  else
    optUnbind s.falseBinding ++ optDisconnect s.trueBinding

/-- `ConditionBinding.disconnect()`: disconnects both branches' sub-bindings. -/
def ConditionBinding.disconnect (s : ConditionBinding) : List BindingEv :=
  optDisconnect s.trueBinding ++ optDisconnect s.falseBinding

/-- A condition binding with both branch sub-bindings present and a plain
`true` condition value. -/
def condBindingBoth : ConditionBinding :=
  { directive := { condition := .val true, trueCase := .val ⟨0, 0⟩, falseCase := .val ⟨0, 1⟩ },
    trueBinding := some ⟨0, 0⟩, falseBinding := some ⟨1, 0⟩, nextId := 2 }

/-- Claim C3 (counterexample): `ConditionBinding.unbind` — not only the whole
directive's `disconnect` — already disconnects the inactive (false) branch's
sub-binding, so a branch sub-binding is NOT disconnected only when the whole
directive's binding is disconnected. -/
theorem condition_unbind_disconnects_inactive :
    condBindingBoth.falseBinding = some ⟨1, 0⟩
    ∧ BindingEv.disconnect 1 ∈ ConditionBinding.unbind condBindingBoth
    ∧ ConditionBinding.unbind condBindingBoth ≠ ConditionBinding.disconnect condBindingBoth := by
  decide

/-- Claim C3 (amended): each re-evaluation via `bind` binds exactly one branch
(the one selected by evaluating the condition, invoking it when it is a
function) and only ever calls `unbind`, never `disconnect`, on the other
branch's existing sub-binding; `ConditionBinding.disconnect` disconnects the
sub-bindings of both branches.  However a branch sub-binding is not only
disconnected by the whole directive's `disconnect`: `ConditionBinding.unbind`
also disconnects the inactive branch's sub-binding. -/
theorem conditionBinding_bind_spec (s : ConditionBinding)
    (hids : ∀ tb fb, s.trueBinding = some tb → s.falseBinding = some fb → tb.id ≠ fb.id) :
    (s.directive.condition.eval = true →
        (ConditionBinding.bind s).1.falseBinding = s.falseBinding
        ∧ (∃ b, (ConditionBinding.bind s).1.trueBinding = some b
            ∧ (BindingEv.bindCall b.id ∈ (ConditionBinding.bind s).2
               ∨ BindingEv.create b.id ∈ (ConditionBinding.bind s).2))
        ∧ ∀ fb, s.falseBinding = some fb →
            BindingEv.unbind fb.id ∈ (ConditionBinding.bind s).2
            ∧ BindingEv.disconnect fb.id ∉ (ConditionBinding.bind s).2)
    ∧ (s.directive.condition.eval = false →
        (ConditionBinding.bind s).1.trueBinding = s.trueBinding
        ∧ (∃ b, (ConditionBinding.bind s).1.falseBinding = some b
            ∧ (BindingEv.bindCall b.id ∈ (ConditionBinding.bind s).2
               ∨ BindingEv.create b.id ∈ (ConditionBinding.bind s).2))
        ∧ ∀ tb, s.trueBinding = some tb →
            BindingEv.unbind tb.id ∈ (ConditionBinding.bind s).2
            ∧ BindingEv.disconnect tb.id ∉ (ConditionBinding.bind s).2)
    ∧ (∀ tb, s.trueBinding = some tb →
        BindingEv.disconnect tb.id ∈ ConditionBinding.disconnect s)
    ∧ (∀ fb, s.falseBinding = some fb →
        BindingEv.disconnect fb.id ∈ ConditionBinding.disconnect s)
    ∧ (∀ i, BindingEv.unbind i ∉ ConditionBinding.disconnect s) := by
  refine ⟨?_, ?_, ?_, ?_, ?_⟩
  · intro h
    refine ⟨?_, ?_, ?_⟩
    · rcases htb : s.trueBinding with _ | tb
      · simp [ConditionBinding.bind, h, htb]
      · by_cases hk : (s.directive.trueCase.eval).kind = tb.kind <;>
          simp [ConditionBinding.bind, h, htb, updateBinding, hk]
    · rcases htb : s.trueBinding with _ | tb
      · exact ⟨⟨s.nextId, (s.directive.trueCase.eval).kind⟩,
          by simp [ConditionBinding.bind, h, htb, createBinding],
          Or.inr (by simp [ConditionBinding.bind, h, htb, createBinding])⟩
      · by_cases hk : (s.directive.trueCase.eval).kind = tb.kind
        · exact ⟨tb, by simp [ConditionBinding.bind, h, htb, updateBinding, hk],
            Or.inl (by simp [ConditionBinding.bind, h, htb, updateBinding, hk])⟩
        · exact ⟨⟨s.nextId, (s.directive.trueCase.eval).kind⟩,
            by simp [ConditionBinding.bind, h, htb, updateBinding, hk],
            Or.inr (by simp [ConditionBinding.bind, h, htb, updateBinding, hk])⟩
    · intro fb hfb
      rcases htb : s.trueBinding with _ | tb
      · simp [ConditionBinding.bind, h, htb, hfb, createBinding]
      · have hne : tb.id ≠ fb.id := hids tb fb htb hfb
        by_cases hk : (s.directive.trueCase.eval).kind = tb.kind <;>
          simp [ConditionBinding.bind, h, htb, hfb, updateBinding, hk, Ne.symm hne]
  · intro h
    refine ⟨?_, ?_, ?_⟩
    · rcases hfb : s.falseBinding with _ | fb
      · simp [ConditionBinding.bind, h, hfb]
      · by_cases hk : (s.directive.falseCase.eval).kind = fb.kind <;>
          simp [ConditionBinding.bind, h, hfb, updateBinding, hk]
    · rcases hfb : s.falseBinding with _ | fb
      · exact ⟨⟨s.nextId, (s.directive.falseCase.eval).kind⟩,
          by simp [ConditionBinding.bind, h, hfb, createBinding],
          Or.inr (by simp [ConditionBinding.bind, h, hfb, createBinding])⟩
      · by_cases hk : (s.directive.falseCase.eval).kind = fb.kind
        · exact ⟨fb, by simp [ConditionBinding.bind, h, hfb, updateBinding, hk],
            Or.inl (by simp [ConditionBinding.bind, h, hfb, updateBinding, hk])⟩
        · exact ⟨⟨s.nextId, (s.directive.falseCase.eval).kind⟩,
            by simp [ConditionBinding.bind, h, hfb, updateBinding, hk],
            Or.inr (by simp [ConditionBinding.bind, h, hfb, updateBinding, hk])⟩
    · intro tb htb
      rcases hfb : s.falseBinding with _ | fb
      · simp [ConditionBinding.bind, h, htb, hfb, createBinding]
      · have hne : tb.id ≠ fb.id := hids tb fb htb hfb
        by_cases hk : (s.directive.falseCase.eval).kind = fb.kind <;>
          simp [ConditionBinding.bind, h, htb, hfb, updateBinding, hk, hne]
  · intro tb htb
    simp [ConditionBinding.disconnect, optDisconnect, htb]
  · intro fb hfb
    rcases htb : s.trueBinding with _ | tb <;>
      simp [ConditionBinding.disconnect, optDisconnect, htb, hfb]
  · intro i
    rcases htb : s.trueBinding with _ | tb <;> rcases hfb : s.falseBinding with _ | fb <;>
      simp [ConditionBinding.disconnect, optDisconnect, htb, hfb]

/-- Claim C3 (witness for the amended theorem): on `condBindingBoth` (condition
`true`, both sub-bindings present) `bind` leaves the false branch's binding in
place and only unbinds it. -/
theorem conditionBinding_bind_spec_witness :
    (ConditionBinding.bind condBindingBoth).1.falseBinding = condBindingBoth.falseBinding
    ∧ BindingEv.unbind 1 ∈ (ConditionBinding.bind condBindingBoth).2
    ∧ BindingEv.disconnect 1 ∉ (ConditionBinding.bind condBindingBoth).2 := by
  have hids : ∀ tb fb, condBindingBoth.trueBinding = some tb →
      condBindingBoth.falseBinding = some fb → tb.id ≠ fb.id := by
    intro tb fb htb hfb
    have h1 : some (⟨0, 0⟩ : BindingObj) = some tb := htb
    have h2 : some (⟨1, 0⟩ : BindingObj) = some fb := hfb
    cases Option.some.inj h1
    cases Option.some.inj h2
    decide
  have h := (conditionBinding_bind_spec condBindingBoth hids).1 (by decide)
  exact ⟨h.1, (h.2.2 ⟨1, 0⟩ rfl).1, (h.2.2 ⟨1, 0⟩ rfl).2⟩

/-- Claim C10: when the directive's condition is a function, `unbind` never
invokes it — it branches on the raw truthiness of the stored condition value,
and a function object is truthy, so it always unbinds the true branch's
sub-binding and disconnects the false branch's sub-binding, whatever `f`
returns; `bind`, by contrast, invokes the function, and with `f () = false`
binds the false branch and merely unbinds the true branch's sub-binding. -/
theorem condition_unbind_fn_truthy (f : Unit → Bool) (s : ConditionBinding)
    (hc : s.directive.condition = VF.fn f) :
    ConditionBinding.unbind s = optUnbind s.trueBinding ++ optDisconnect s.falseBinding
    ∧ (f () = false →
        (ConditionBinding.bind s).1.trueBinding = s.trueBinding
        ∧ (∃ b, (ConditionBinding.bind s).1.falseBinding = some b)
        ∧ ∀ tb, s.trueBinding = some tb →
            BindingEv.unbind tb.id ∈ (ConditionBinding.bind s).2) := by
  constructor
  · unfold ConditionBinding.unbind
    rw [hc]
    rfl
  · intro hf
    have h : s.directive.condition.eval = false := by rw [hc]; exact hf
    refine ⟨?_, ?_, ?_⟩
    · rcases hfb : s.falseBinding with _ | fb
      · simp [ConditionBinding.bind, h, hfb]
      · by_cases hk : (s.directive.falseCase.eval).kind = fb.kind <;>
          simp [ConditionBinding.bind, h, hfb, updateBinding, hk]
    · rcases hfb : s.falseBinding with _ | fb
      · exact ⟨⟨s.nextId, (s.directive.falseCase.eval).kind⟩,
          by simp [ConditionBinding.bind, h, hfb, createBinding]⟩
      · by_cases hk : (s.directive.falseCase.eval).kind = fb.kind
        · exact ⟨fb, by simp [ConditionBinding.bind, h, hfb, updateBinding, hk]⟩
        · exact ⟨⟨s.nextId, (s.directive.falseCase.eval).kind⟩,
            by simp [ConditionBinding.bind, h, hfb, updateBinding, hk]⟩
    · intro tb htb
      rcases hfb : s.falseBinding with _ | fb
      · simp [ConditionBinding.bind, h, htb, hfb, createBinding]
      · by_cases hk : (s.directive.falseCase.eval).kind = fb.kind <;>
          simp [ConditionBinding.bind, h, htb, hfb, updateBinding, hk]

/-- A condition binding whose condition is the function `() => false`, with
both branch sub-bindings present. -/
def condBindingFn : ConditionBinding :=
  { directive := { condition := .fn (fun _ => false), trueCase := .val ⟨0, 0⟩,
                   falseCase := .val ⟨0, 1⟩ },
    trueBinding := some ⟨0, 0⟩, falseBinding := some ⟨1, 0⟩, nextId := 2 }

/-- Claim C10 (witness): with condition `() => false`, `unbind` still unbinds
the true branch's sub-binding and disconnects the false branch's. -/
theorem condition_unbind_fn_truthy_witness :
    ConditionBinding.unbind condBindingFn
      = optUnbind condBindingFn.trueBinding ++ optDisconnect condBindingFn.falseBinding
    ∧ ((fun _ : Unit => false) () = false →
        (ConditionBinding.bind condBindingFn).1.trueBinding = condBindingFn.trueBinding
        ∧ (∃ b, (ConditionBinding.bind condBindingFn).1.falseBinding = some b)
        ∧ ∀ tb, condBindingFn.trueBinding = some tb →
            BindingEv.unbind tb.id ∈ (ConditionBinding.bind condBindingFn).2) :=
  condition_unbind_fn_truthy (fun _ => false) condBindingFn rfl

/-! ### ChoiceBinding (`src/directives/choice.ts`)

Keys are `Nat` (`Object.is` on keys becomes `=`); the per-key cache
`Map<TKey, Binding<TValue>>` is an association list. -/

structure ChoiceDirective where
  key : Nat
  factory : Nat → DirValue

structure ChoiceBinding where
  currentBinding : BindingObj
  currentKey : Nat
  directive : ChoiceDirective
  cachedBindings : List (Nat × BindingObj)
  nextId : Nat

/-- The `value` setter: `binding.value = newDirective`. -/
def ChoiceBinding.setDirective (s : ChoiceBinding) (d : ChoiceDirective) : ChoiceBinding :=
  { s with directive := d }

/-- `ChoiceBinding.bind(updater)`: same key — update the current binding in
place; key change — unbind the current binding, stash it in the cache under the
old key, then reuse a cached binding for the new key (forced rebind) or create
a fresh one. -/
def ChoiceBinding.bind (s : ChoiceBinding) : ChoiceBinding × List BindingEv :=
  let factory := s.directive.factory
  let oldKey := s.currentKey
  let newKey := s.directive.key
  let newValue := factory newKey
  if oldKey = newKey then
    let r := updateBinding s.currentBinding newValue s.nextId false
    ({ s with currentBinding := r.1, nextId := r.2.1 }, r.2.2)
  else
    let cache1 := cacheSet s.cachedBindings oldKey s.currentBinding
    let unbindEvs := [BindingEv.unbind s.currentBinding.id]
    match cacheGet cache1 newKey with
    | some cachedBinding =>
        let r := updateBinding cachedBinding newValue s.nextId true
        ({ s with currentBinding := r.1, currentKey := newKey,
                  cachedBindings := cache1, nextId := r.2.1 },
         unbindEvs ++ r.2.2)
    | none =>
        let r := createBinding newValue s.nextId
        ({ s with currentBinding := r.1, currentKey := newKey,
                  cachedBindings := cache1, nextId := r.2.1 },
         unbindEvs ++ r.2.2)

/-- `ChoiceBinding.unbind(updater)`: unbinds the current binding, then
disconnects every cached binding whose key differs from the directive's
current key (JS `Map` iteration order = insertion order). -/
def ChoiceBinding.unbind (s : ChoiceBinding) : List BindingEv :=
  BindingEv.unbind s.currentBinding.id ::
    (s.cachedBindings.filter (fun e => e.1 != s.directive.key)).map
      (fun e => BindingEv.disconnect e.2.id)

/-- `ChoiceBinding.disconnect()`: disconnects every cached binding whose key
differs from the directive's current key. -/
def ChoiceBinding.disconnect (s : ChoiceBinding) : List BindingEv :=
  (s.cachedBindings.filter (fun e => e.1 != s.directive.key)).map
    (fun e => BindingEv.disconnect e.2.id)

/-- Claim C6: `unbind` and `disconnect` both disconnect exactly the cached
bindings whose key differs from the directive's currently active key, and no
other binding; a binding cached only under the active key is never
disconnected by either; `unbind` additionally unbinds the current binding,
while `disconnect` performs no unbind calls. -/
theorem choice_sweep_spec (s : ChoiceBinding) (i : Nat) :
    (BindingEv.disconnect i ∈ ChoiceBinding.unbind s ↔
        ∃ e, e ∈ s.cachedBindings ∧ e.1 ≠ s.directive.key ∧ e.2.id = i)
    ∧ (BindingEv.disconnect i ∈ ChoiceBinding.disconnect s ↔
        ∃ e, e ∈ s.cachedBindings ∧ e.1 ≠ s.directive.key ∧ e.2.id = i)
    ∧ BindingEv.unbind s.currentBinding.id ∈ ChoiceBinding.unbind s
    ∧ (∀ j, BindingEv.unbind j ∉ ChoiceBinding.disconnect s)
    ∧ (∀ b : BindingObj,
        (∀ k c, (k, c) ∈ s.cachedBindings → c.id = b.id → k = s.directive.key) →
        BindingEv.disconnect b.id ∉ ChoiceBinding.unbind s
        ∧ BindingEv.disconnect b.id ∉ ChoiceBinding.disconnect s) := by
  have hmem : ∀ j, BindingEv.disconnect j ∈ ChoiceBinding.disconnect s ↔
      ∃ e, e ∈ s.cachedBindings ∧ e.1 ≠ s.directive.key ∧ e.2.id = j := by
    intro j
    unfold ChoiceBinding.disconnect
    simp only [List.mem_map, List.mem_filter]
    constructor
    · rintro ⟨e, ⟨he, hk⟩, heq⟩
      exact ⟨e, he, by simpa using hk, by simpa using heq⟩
    · rintro ⟨e, he, hk, heq⟩
      exact ⟨e, ⟨he, by simpa using hk⟩, by simpa using heq⟩
  have hunb : ∀ j, BindingEv.disconnect j ∈ ChoiceBinding.unbind s ↔
      BindingEv.disconnect j ∈ ChoiceBinding.disconnect s := by
    intro j
    unfold ChoiceBinding.unbind ChoiceBinding.disconnect
    simp
  refine ⟨(hunb i).trans (hmem i), hmem i, ?_, ?_, ?_⟩
  · unfold ChoiceBinding.unbind
    exact List.mem_cons_self _ _
  · intro j
    unfold ChoiceBinding.disconnect
    simp
  · intro b hb
    have hnot : BindingEv.disconnect b.id ∉ ChoiceBinding.disconnect s := by
      rw [hmem b.id]
      rintro ⟨e, he, hk, heq⟩
      exact hk (hb e.1 e.2 he heq)
    exact ⟨fun hmem2 => hnot ((hunb b.id).mp hmem2), hnot⟩

/-- A choice binding whose cache holds one binding under the active key `1` and
one under the inactive key `2`. -/
def choiceBindingCached : ChoiceBinding :=
  { currentBinding := ⟨3, 5⟩, currentKey := 1,
    directive := { key := 1, factory := fun _ => ⟨5, 0⟩ },
    cachedBindings := [(1, ⟨0, 5⟩), (2, ⟨1, 5⟩)], nextId := 4 }

/-- Claim C6 (witness): on `choiceBindingCached`, the binding cached under the
active key (id 0) is not disconnected by `unbind` or `disconnect`. -/
theorem choice_sweep_spec_witness :
    BindingEv.disconnect 0 ∉ ChoiceBinding.unbind choiceBindingCached
    ∧ BindingEv.disconnect 0 ∉ ChoiceBinding.disconnect choiceBindingCached :=
  (choice_sweep_spec choiceBindingCached 0).2.2.2.2 ⟨0, 5⟩ (by
    intro k c hkc hid
    simp only [choiceBindingCached, List.mem_cons, List.not_mem_nil, or_false,
      Prod.mk.injEq] at hkc
    rcases hkc with ⟨rfl, rfl⟩ | ⟨rfl, rfl⟩
    · rfl
    · exact absurd hid (by decide))

/-- Claim C2: switching the active key A → B → A (with the binding for A never
disconnected in between — indeed neither `bind` step ever disconnects it)
restores, by object identity, the very same binding that was active for A:
on each key change the previous binding is unbound and stashed in the per-key
cache, and the binding for the new key is taken from that cache with a forced
rebind when present (the same object when its accepted kind matches the new
value), otherwise created fresh. -/
theorem choice_aba_identity (s : ChoiceBinding) (A B : Nat) (f2 : Nat → DirValue)
    (hA : s.currentKey = A) (hB : s.directive.key = B) (hne : A ≠ B)
    (hkind : (f2 A).kind = s.currentBinding.kind)
    (hcache : ∀ k b, (k, b) ∈ s.cachedBindings → b.id ≠ s.currentBinding.id) :
    (ChoiceBinding.bind
        (ChoiceBinding.setDirective (ChoiceBinding.bind s).1
          { key := A, factory := f2 })).1.currentBinding = s.currentBinding
    ∧ BindingEv.unbind s.currentBinding.id ∈ (ChoiceBinding.bind s).2
    ∧ BindingEv.disconnect s.currentBinding.id ∉ (ChoiceBinding.bind s).2
    ∧ BindingEv.disconnect s.currentBinding.id ∉
        (ChoiceBinding.bind
          (ChoiceBinding.setDirective (ChoiceBinding.bind s).1
            { key := A, factory := f2 })).2 := by
  subst hA
  subst hB
  have hBA : s.directive.key ≠ s.currentKey := Ne.symm hne
  have hget1 : cacheGet (cacheSet s.cachedBindings s.currentKey s.currentBinding)
      s.directive.key = cacheGet s.cachedBindings s.directive.key :=
    cacheGet_set_ne _ _ _ _ hBA
  rcases hcb : cacheGet s.cachedBindings s.directive.key with _ | cb
  · refine ⟨?_, ?_, ?_, ?_⟩
    · simp [ChoiceBinding.bind, ChoiceBinding.setDirective, updateBinding, createBinding,
        hne, hBA, hget1, hcb, hkind, cacheGet_set_self, cacheGet_set_ne]
    · simp [ChoiceBinding.bind, hne, hget1, hcb, createBinding]
    · simp [ChoiceBinding.bind, hne, hget1, hcb, createBinding]
    · simp [ChoiceBinding.bind, ChoiceBinding.setDirective, updateBinding, createBinding,
        hne, hBA, hget1, hcb, hkind, cacheGet_set_self, cacheGet_set_ne]
  · have hcbid : cb.id ≠ s.currentBinding.id :=
      hcache s.directive.key cb (cacheGet_mem _ _ _ hcb)
    by_cases hk2 : (s.directive.factory s.directive.key).kind = cb.kind
    · refine ⟨?_, ?_, ?_, ?_⟩
      · simp [ChoiceBinding.bind, ChoiceBinding.setDirective, updateBinding, createBinding,
          hne, hBA, hget1, hcb, hk2, hkind, cacheGet_set_self, cacheGet_set_ne]
      · simp [ChoiceBinding.bind, hne, hget1, hcb, updateBinding, hk2]
      · simp [ChoiceBinding.bind, hne, hget1, hcb, updateBinding, hk2]
      · simp [ChoiceBinding.bind, ChoiceBinding.setDirective, updateBinding, createBinding,
          hne, hBA, hget1, hcb, hk2, hkind, cacheGet_set_self, cacheGet_set_ne]
    · refine ⟨?_, ?_, ?_, ?_⟩
      · simp [ChoiceBinding.bind, ChoiceBinding.setDirective, updateBinding, createBinding,
          hne, hBA, hget1, hcb, hk2, hkind, cacheGet_set_self, cacheGet_set_ne]
      · simp [ChoiceBinding.bind, hne, hget1, hcb, updateBinding, hk2]
      · simp [ChoiceBinding.bind, hne, hget1, hcb, updateBinding, hk2, Ne.symm hcbid]
      · simp [ChoiceBinding.bind, ChoiceBinding.setDirective, updateBinding, createBinding,
          hne, hBA, hget1, hcb, hk2, hkind, cacheGet_set_self, cacheGet_set_ne]

/-- A fresh choice binding active for key 0, directive switched to key 1. -/
def choiceBindingStart : ChoiceBinding :=
  { currentBinding := ⟨0, 5⟩, currentKey := 0,
    directive := { key := 1, factory := fun _ => ⟨5, 0⟩ },
    cachedBindings := [], nextId := 1 }

/-- Claim C2 (witness): switching 0 → 1 → 0 restores binding id 0 as the
current binding, never disconnecting it. -/
theorem choice_aba_identity_witness :
    (ChoiceBinding.bind
        (ChoiceBinding.setDirective (ChoiceBinding.bind choiceBindingStart).1
          { key := 0, factory := fun _ => ⟨5, 9⟩ })).1.currentBinding
      = choiceBindingStart.currentBinding
    ∧ BindingEv.unbind choiceBindingStart.currentBinding.id
        ∈ (ChoiceBinding.bind choiceBindingStart).2
    ∧ BindingEv.disconnect choiceBindingStart.currentBinding.id
        ∉ (ChoiceBinding.bind choiceBindingStart).2
    ∧ BindingEv.disconnect choiceBindingStart.currentBinding.id
        ∉ (ChoiceBinding.bind
            (ChoiceBinding.setDirective (ChoiceBinding.bind choiceBindingStart).1
              { key := 0, factory := fun _ => ⟨5, 9⟩ })).2 :=
  choice_aba_identity choiceBindingStart 0 1 (fun _ => ⟨5, 9⟩) rfl rfl
    (by decide) rfl (by simp [choiceBindingStart])

/-! ### UnsafeSVG (`src/directives/unsafeSVG.ts`)

The value currently held by a `ChildPart`.  `instanceof UnsafeSVGChild` matches
only `unsafeSVGChildVal`; the directive's own application stores a plain
`UnsafeSVG` object (`unsafeSVGVal`). -/

inductive ChildVal : Type
  | unsafeSVGChildVal (content : String)
  | unsafeSVGVal (content : String)
  | other (n : Nat)
deriving DecidableEq

/-- A `Part`: a `ChildPart` holding its last value, or a non-child part. -/
inductive Part : Type
  | child (value : ChildVal)
  | attr (name : String)
  | ev (name : String)
  | prop (name : String)
deriving DecidableEq

/-- `part.value instanceof UnsafeSVGChild && part.value.content === this._content`. -/
def isSameUnsafeSVGChild (v : ChildVal) (content : String) : Bool :=
  match v with
  | .unsafeSVGChildVal c => c == content
  | _ => false

/-- The result of applying the directive: the part afterwards and whether
`updater.enqueueMutationEffect(part)` was called. -/
structure ApplyResult where
  part : Part
  mutationEnqueued : Bool
deriving DecidableEq

/-- `UnsafeSVG[directiveSymbol](part, updater)`: throws unless the part is a
`ChildPart`; skips the update when the part's value is an `UnsafeSVGChild`
with the same content; otherwise `part.setValue(new UnsafeSVG(this._content),
updater)` (note: the directive object itself, not an `UnsafeSVGChild`) and
enqueues a mutation effect.  `ChildPart.setValue` (parts.ts, not under `src/`)
is modelled from the spec: it stores the given value as the part's current
value. -/
def UnsafeSVG.apply (content : String) (p : Part) : Except String ApplyResult :=
  match p with
  | .child v =>
      if isSameUnsafeSVGChild v content then
        .ok ⟨.child v, false⟩
      else
        .ok ⟨.child (.unsafeSVGVal content), true⟩
  | _ => .error "\"UnsafeSVG\" directive must be used in an arbitrary child."

/-- Claim C7: applying an UnsafeSVG directive to a part that is not a
child-region part throws immediately, for every content string; no value is
written and no effect enqueued. -/
theorem unsafeSVG_non_child_error (content : String) (p : Part)
    (h : ∀ v, p ≠ Part.child v) :
    UnsafeSVG.apply content p
      = .error "\"UnsafeSVG\" directive must be used in an arbitrary child." := by
  cases p with
  | child v => exact absurd rfl (h v)
  | attr n => rfl
  | ev n => rfl
  | prop n => rfl

/-- Claim C7 (witness): applying to an attribute part errors. -/
theorem unsafeSVG_non_child_error_witness :
    UnsafeSVG.apply "<circle />" (Part.attr "id")
      = .error "\"UnsafeSVG\" directive must be used in an arbitrary child." :=
  unsafeSVG_non_child_error "<circle />" (Part.attr "id") (by intro v h; cases h)

/-- Claim C8 (code bug evidence): applying `unsafeSVG(C)` stores the directive
object itself (`new UnsafeSVG(content)`), not an `UnsafeSVGChild`; hence a
second application with the identical content does NOT short-circuit — it sets
a value and enqueues a mutation effect again — and the
`instanceof UnsafeSVGChild` guard only fires for an `UnsafeSVGChild` value,
which the directive never produces. -/
theorem unsafeSVG_same_content_rebinds :
    UnsafeSVG.apply "<circle />" (Part.child (ChildVal.other 0))
      = .ok ⟨Part.child (.unsafeSVGVal "<circle />"), true⟩
    ∧ UnsafeSVG.apply "<circle />" (Part.child (.unsafeSVGVal "<circle />"))
      = .ok ⟨Part.child (.unsafeSVGVal "<circle />"), true⟩
    ∧ UnsafeSVG.apply "<circle />" (Part.child (.unsafeSVGChildVal "<circle />"))
      = .ok ⟨Part.child (.unsafeSVGChildVal "<circle />"), false⟩ := by
  refine ⟨rfl, ?_, ?_⟩
  · simp [UnsafeSVG.apply, isSameUnsafeSVGChild]
  · simp [UnsafeSVG.apply, isSameUnsafeSVGChild]

/-! ### Scope variables (`LocalScope.getVariable` / `setVariable`, and the
structurally identical `Scope.getVariable` / `setVariable`)

JS values include `undefined` and `null`; a record access on a missing key
yields `undefined`, and `??` falls back exactly on nullish values. -/

inductive JSValue : Type
  | undef
  | nullv
  | num (n : Nat)
  | str (s : String)
deriving DecidableEq

def JSValue.isNullish : JSValue → Bool
  | .undef => true
  | .nullv => true
  | _ => false

/-- The `??` operator. -/
def nullishCoalesce (a b : JSValue) : JSValue :=
  if a.isNullish then b else a

/-- `record[key]`: `undefined` when the key is missing. -/
def recGet (rec : List (Nat × JSValue)) (k : Nat) : JSValue :=
  (cacheGet rec k).getD .undef

structure ScopeVars where
  globalVariables : List (Nat × JSValue)
  variableScope : List (Nat × List (Nat × JSValue))
deriving DecidableEq

/-- `getVariable(key, renderable)`:
`this._variableScope.get(renderable)?.[key] ?? this._globalVariables[key]`. -/
def Scope.getVariable (key : Nat) (renderable : Nat) (s : ScopeVars) : JSValue :=
  nullishCoalesce
    (match cacheGet s.variableScope renderable with
     | some vars => recGet vars key
     | none => .undef)
    (recGet s.globalVariables key)

/-- `setVariable(key, value, renderable)`: updates the renderable's record in
place, or creates a fresh `{ [key]: value }` record. -/
def Scope.setVariable (key : Nat) (value : JSValue) (renderable : Nat)
    (s : ScopeVars) : ScopeVars :=
  match cacheGet s.variableScope renderable with
  | some vars =>
      { s with variableScope := cacheSet s.variableScope renderable (cacheSet vars key value) }
  | none =>
      { s with variableScope := cacheSet s.variableScope renderable [(key, value)] }

/-- Claim C9 (counterexample): storing `null` under key 0 for renderable 0 and
reading it back yields the global value 5, not the stored `null` — the `??`
fallback also triggers on a stored nullish value. -/
theorem setVariable_nullish_counterexample :
    Scope.getVariable 0 0
        (Scope.setVariable 0 JSValue.nullv 0
          { globalVariables := [(0, JSValue.num 5)], variableScope := [] })
      = JSValue.num 5
    ∧ JSValue.num 5 ≠ JSValue.nullv := by
  decide

/-- Claim C9 (amended): after `setVariable(k, v, r)`, `getVariable(k, r)`
returns `v` provided `v` is not nullish (`null`/`undefined`); a nullish stored
value falls back to the global record; and if the variable `k` was never set
for `r` — whether `r` has no per-renderable record at all or a record that
lacks `k` — `getVariable(k, r)` returns the global value of `k`. -/
theorem getVariable_spec (s : ScopeVars) (k r : Nat) (v : JSValue) :
    (v.isNullish = false →
        Scope.getVariable k r (Scope.setVariable k v r s) = v)
    ∧ (v.isNullish = true →
        Scope.getVariable k r (Scope.setVariable k v r s) = recGet s.globalVariables k)
    ∧ (∀ vars, cacheGet s.variableScope r = some vars → cacheGet vars k = none →
        Scope.getVariable k r s = recGet s.globalVariables k)
    ∧ (cacheGet s.variableScope r = none →
        Scope.getVariable k r s = recGet s.globalVariables k) := by
  have hrec : Scope.getVariable k r (Scope.setVariable k v r s)
      = nullishCoalesce v (recGet s.globalVariables k) := by
    rcases hv : cacheGet s.variableScope r with _ | vars
    · simp [Scope.setVariable, Scope.getVariable, hv, cacheGet_set_self, recGet, cacheGet]
    · simp [Scope.setVariable, Scope.getVariable, hv, cacheGet_set_self, recGet]
  refine ⟨?_, ?_, ?_, ?_⟩
  · intro hnn
    rw [hrec]
    unfold nullishCoalesce
    rw [hnn]
    rfl
  · intro hn
    rw [hrec]
    unfold nullishCoalesce
    rw [hn]
    rfl
  · intro vars hv hk
    simp [Scope.getVariable, hv, recGet, hk, nullishCoalesce, JSValue.isNullish]
  · intro hnone
    simp [Scope.getVariable, hnone, nullishCoalesce, JSValue.isNullish]

/-- Claim C9 (witness for the amended theorem): a non-nullish stored value is
read back as stored; a renderable whose record lacks the key falls back to the
global record, as does a renderable with no record at all. -/
theorem getVariable_spec_witness :
    Scope.getVariable 0 0
        (Scope.setVariable 0 (JSValue.num 7) 0
          { globalVariables := [(0, JSValue.num 5)], variableScope := [] })
      = JSValue.num 7
    ∧ Scope.getVariable 0 0
        { globalVariables := [(0, JSValue.num 5)],
          variableScope := [(0, [(1, JSValue.num 9)])] }
      = recGet [(0, JSValue.num 5)] 0
    ∧ Scope.getVariable 0 3
        { globalVariables := [(0, JSValue.num 5)], variableScope := [] }
      = recGet [(0, JSValue.num 5)] 0 :=
  ⟨(getVariable_spec { globalVariables := [(0, JSValue.num 5)], variableScope := [] }
      0 0 (JSValue.num 7)).1 (by decide),
   (getVariable_spec
      { globalVariables := [(0, JSValue.num 5)],
        variableScope := [(0, [(1, JSValue.num 9)])] }
      0 0 JSValue.undef).2.2.1 [(1, JSValue.num 9)] (by decide) (by decide),
   (getVariable_spec { globalVariables := [(0, JSValue.num 5)], variableScope := [] }
      0 3 JSValue.undef).2.2.2 (by decide)⟩

/-! ### Template caches (`Scope.createTemplate`,
`LocalScope.createHTMLTemplate` / `createSVGTemplate`)

Static-strings arrays (`TemplateStringsArray`) are identified by `Nat` ids
(reference identity of the tagged-template literal array).  `Template.parse` /
`TaggedTemplate.parseHTML` / `parseSVG` always construct a fresh Template
object, modelled by the `parseCount` counter (SVG-parsed templates are tagged
`true`).  Each call additionally reports the list of strings arrays it
parsed. -/

structure ScopeT where
  templateCaches : List (Nat × Nat)
  parseCount : Nat
deriving DecidableEq

/-- `Scope.createTemplate(strings, values)`: returns the cached template for
this strings array, or parses a fresh one (`Template.parse`) and caches it. -/
def Scope.createTemplate (strings : Nat) (s : ScopeT) : Nat × ScopeT × List Nat :=
  match cacheGet s.templateCaches strings with
  | some template => (template, s, [])
  | none =>
      (s.parseCount,
       { templateCaches := cacheSet s.templateCaches strings s.parseCount,
         parseCount := s.parseCount + 1 },
       [strings])

structure LocalScopeT where
  templateCaches : List (Nat × (Nat × Bool))
  parseCount : Nat
deriving DecidableEq

/-- `LocalScope.createHTMLTemplate(tokens, values)`: cached template or a fresh
`TaggedTemplate.parseHTML` result, cached in the shared `_templateCaches`. -/
def LocalScope.createHTMLTemplate (tokens : Nat) (s : LocalScopeT) :
    (Nat × Bool) × LocalScopeT × List Nat :=
  match cacheGet s.templateCaches tokens with
  | some template => (template, s, [])
  | none =>
      ((s.parseCount, false),
       { templateCaches := cacheSet s.templateCaches tokens (s.parseCount, false),
         parseCount := s.parseCount + 1 },
       [tokens])

/-- `LocalScope.createSVGTemplate(tokens, values)`: cached template or a fresh
`TaggedTemplate.parseSVG` result, cached in the shared `_templateCaches`. -/
def LocalScope.createSVGTemplate (tokens : Nat) (s : LocalScopeT) :
    (Nat × Bool) × LocalScopeT × List Nat :=
  match cacheGet s.templateCaches tokens with
  | some template => (template, s, [])
  | none =>
      ((s.parseCount, true),
       { templateCaches := cacheSet s.templateCaches tokens (s.parseCount, true),
         parseCount := s.parseCount + 1 },
       [tokens])

/-- A sequence of `createTemplate` calls; accumulates the parse events. -/
def Scope.runCreates : List Nat → ScopeT → ScopeT × List Nat
  | [], s => (s, [])
  | t :: rest, s =>
      let r := Scope.createTemplate t s
      let r' := Scope.runCreates rest r.2.1
      (r'.1, r.2.2 ++ r'.2)

/-- A sequence of interleaved `createSVGTemplate` (`true`) /
`createHTMLTemplate` (`false`) calls; accumulates the parse events. -/
def LocalScope.runCreates : List (Bool × Nat) → LocalScopeT → LocalScopeT × List Nat
  | [], s => (s, [])
  | (isSVG, t) :: rest, s =>
      let r := if isSVG then LocalScope.createSVGTemplate t s
               else LocalScope.createHTMLTemplate t s
      let r' := LocalScope.runCreates rest r.2.1
      (r'.1, r.2.2 ++ r'.2)

theorem scope_parse_zero_of_cached (calls : List Nat) (s : ScopeT) (tok : Nat)
    (h : cacheGet s.templateCaches tok ≠ none) :
    ((Scope.runCreates calls s).2).count tok = 0 := by
  induction calls generalizing s with
  | nil => rfl
  | cons t rest ih =>
      rcases hcb : cacheGet s.templateCaches t with _ | temp
      · have hne : t ≠ tok := by
          intro heq
          rw [heq] at hcb
          exact h hcb
        simp only [Scope.runCreates, Scope.createTemplate, hcb]
        rw [List.count_append]
        have h2 := ih { templateCaches := cacheSet s.templateCaches t s.parseCount,
                        parseCount := s.parseCount + 1 }
          (cacheGet_set_isSome _ _ _ _ h)
        simp [h2, List.count_singleton, hne]
      · simp only [Scope.runCreates, Scope.createTemplate, hcb]
        rw [List.count_append]
        simp [ih s h]

theorem scope_parse_le_one (calls : List Nat) (s : ScopeT) (tok : Nat) :
    ((Scope.runCreates calls s).2).count tok ≤ 1 := by
  induction calls generalizing s with
  | nil => simp [Scope.runCreates]
  | cons t rest ih =>
      rcases hcb : cacheGet s.templateCaches t with _ | temp
      · by_cases hne : t = tok
        · subst hne
          simp only [Scope.runCreates, Scope.createTemplate, hcb]
          rw [List.count_append]
          have h0 : ((Scope.runCreates rest
              { templateCaches := cacheSet s.templateCaches t s.parseCount,
                parseCount := s.parseCount + 1 }).2).count t = 0 :=
            scope_parse_zero_of_cached rest _ t (by simp [cacheGet_set_self])
          simp [h0, List.count_singleton]
        · simp only [Scope.runCreates, Scope.createTemplate, hcb]
          rw [List.count_append]
          simp [List.count_singleton, hne, ih]
      · simp only [Scope.runCreates, Scope.createTemplate, hcb]
        rw [List.count_append]
        simp [ih]

theorem localScope_parse_zero_of_cached (calls : List (Bool × Nat)) (s : LocalScopeT)
    (tok : Nat) (h : cacheGet s.templateCaches tok ≠ none) :
    ((LocalScope.runCreates calls s).2).count tok = 0 := by
  induction calls generalizing s with
  | nil => rfl
  | cons c rest ih =>
      obtain ⟨isSVG, t⟩ := c
      rcases hcb : cacheGet s.templateCaches t with _ | temp
      · have hne : t ≠ tok := by
          intro heq
          rw [heq] at hcb
          exact h hcb
        cases isSVG
        · have h2 := ih { templateCaches := cacheSet s.templateCaches t (s.parseCount, false),
                          parseCount := s.parseCount + 1 }
            (cacheGet_set_isSome _ _ _ _ h)
          simp only [LocalScope.runCreates, LocalScope.createHTMLTemplate, hcb,
            Bool.false_eq_true, ite_false]
          rw [List.count_append]
          simp [h2, List.count_singleton, hne]
        · have h2 := ih { templateCaches := cacheSet s.templateCaches t (s.parseCount, true),
                          parseCount := s.parseCount + 1 }
            (cacheGet_set_isSome _ _ _ _ h)
          simp only [LocalScope.runCreates, LocalScope.createSVGTemplate, hcb, ite_true]
          rw [List.count_append]
          simp [h2, List.count_singleton, hne]
      · cases isSVG
        · simp only [LocalScope.runCreates, LocalScope.createHTMLTemplate, hcb,
            Bool.false_eq_true, ite_false]
          rw [List.count_append]
          simp [ih s h]
        · simp only [LocalScope.runCreates, LocalScope.createSVGTemplate, hcb, ite_true]
          rw [List.count_append]
          simp [ih s h]

theorem localScope_parse_le_one (calls : List (Bool × Nat)) (s : LocalScopeT) (tok : Nat) :
    ((LocalScope.runCreates calls s).2).count tok ≤ 1 := by
  induction calls generalizing s with
  | nil => simp [LocalScope.runCreates]
  | cons c rest ih =>
      obtain ⟨isSVG, t⟩ := c
      rcases hcb : cacheGet s.templateCaches t with _ | temp
      · by_cases hne : t = tok
        · subst hne
          cases isSVG
          · have h0 := localScope_parse_zero_of_cached rest
              { templateCaches := cacheSet s.templateCaches t (s.parseCount, false),
                parseCount := s.parseCount + 1 } t (by simp [cacheGet_set_self])
            simp only [LocalScope.runCreates, LocalScope.createHTMLTemplate, hcb,
              Bool.false_eq_true, ite_false]
            rw [List.count_append]
            simp [h0, List.count_singleton]
          · have h0 := localScope_parse_zero_of_cached rest
              { templateCaches := cacheSet s.templateCaches t (s.parseCount, true),
                parseCount := s.parseCount + 1 } t (by simp [cacheGet_set_self])
            simp only [LocalScope.runCreates, LocalScope.createSVGTemplate, hcb, ite_true]
            rw [List.count_append]
            simp [h0, List.count_singleton]
        · cases isSVG
          · simp only [LocalScope.runCreates, LocalScope.createHTMLTemplate, hcb,
              Bool.false_eq_true, ite_false]
            rw [List.count_append]
            simp [List.count_singleton, hne, ih]
          · simp only [LocalScope.runCreates, LocalScope.createSVGTemplate, hcb, ite_true]
            rw [List.count_append]
            simp [List.count_singleton, hne, ih]
      · cases isSVG
        · simp only [LocalScope.runCreates, LocalScope.createHTMLTemplate, hcb,
            Bool.false_eq_true, ite_false]
          rw [List.count_append]
          simp [ih]
        · simp only [LocalScope.runCreates, LocalScope.createSVGTemplate, hcb, ite_true]
          rw [List.count_append]
          simp [ih]

/-- Claim C4: calling `createTemplate` (respectively `createHTMLTemplate` /
`createSVGTemplate`) twice with the same static-strings array returns the same
Template object both times (with no parse on the second call), and over any
sequence of calls the parser runs at most once per distinct strings array. -/
theorem createTemplate_cached (s : ScopeT) (ls : LocalScopeT) (tok : Nat)
    (calls : List Nat) (lcalls : List (Bool × Nat)) :
    (Scope.createTemplate tok (Scope.createTemplate tok s).2.1).1
      = (Scope.createTemplate tok s).1
    ∧ (Scope.createTemplate tok (Scope.createTemplate tok s).2.1).2.2 = []
    ∧ (LocalScope.createHTMLTemplate tok (LocalScope.createHTMLTemplate tok ls).2.1).1
      = (LocalScope.createHTMLTemplate tok ls).1
    ∧ (LocalScope.createSVGTemplate tok (LocalScope.createSVGTemplate tok ls).2.1).1
      = (LocalScope.createSVGTemplate tok ls).1
    ∧ ((Scope.runCreates calls s).2).count tok ≤ 1
    ∧ ((LocalScope.runCreates lcalls ls).2).count tok ≤ 1 := by
  refine ⟨?_, ?_, ?_, ?_, scope_parse_le_one calls s tok, localScope_parse_le_one lcalls ls tok⟩
  · rcases hcb : cacheGet s.templateCaches tok with _ | temp <;>
      simp [Scope.createTemplate, hcb, cacheGet_set_self]
  · rcases hcb : cacheGet s.templateCaches tok with _ | temp <;>
      simp [Scope.createTemplate, hcb, cacheGet_set_self]
  · rcases hcb : cacheGet ls.templateCaches tok with _ | temp <;>
      simp [LocalScope.createHTMLTemplate, hcb, cacheGet_set_self]
  · rcases hcb : cacheGet ls.templateCaches tok with _ | temp <;>
      simp [LocalScope.createSVGTemplate, hcb, cacheGet_set_self]

end Tempura
